import Mathlib

/-!
A shallow embedding of `pymkv/MKVFile.py` (the `MKVFile` class) and proofs
about its behaviour.

Modelling conventions:
* Python exceptions are modelled by the `Err` type; a mutating method on
  `MKVFile` returns the (possibly partially mutated) state together with an
  optional raised error, `MKVFile × Option Err`.
* Python dynamic arguments are modelled by small sum types (`PyVal`,
  `SizeArg`, `TsArg`, `PartArg`, `PopArg`).
* `os.path.expanduser`, `os.path.isfile` and the contents of the
  `ISO639-2.txt` reference file are environment facts, threaded through an
  `Env` record.
* The timestamp regular expression
  `^[0-9]{1,2}(:[0-9]{1,2}){1,2}(\.[0-9]{1,9})?$` is implemented by an
  equivalent structural character-level matcher (`tsBody`): because the
  quantified pieces are digit runs delimited by the distinct characters
  `:` and `.`, maximal-munch splitting on those delimiters recognises the
  same language as the backtracking regex.  Python's `$` also matches just
  before a single trailing newline, which `matchDollar` reproduces.
-/

namespace PyMKV

/-- Python exception kinds raised by the methods of `MKVFile`. -/
inductive Err
  | indexError
  | typeError
  | valueError
  | fileNotFoundError
deriving DecidableEq

/-- A Python value passed in timestamp positions: `None`, an `int`, or a
`str`.  (`none` also stands in for any other non-`int`, non-`str` object in
positions where the source only tests `isinstance`.) -/
inductive PyVal
  | none
  | int (n : Int)
  | str (s : String)
deriving DecidableEq

/-- The value returned by `MKVFile.check_ts`: Python `True`, `False`, or
`None` (the bare `return` in the `plus` branch yields `None`). -/
inductive PyTruth
  | tru
  | fls
  | noneVal
deriving DecidableEq

/-- Python truthiness of a `check_ts` result: only `True` is truthy. -/
def PyTruth.truthy : PyTruth → Bool
  | .tru => true
  | _ => false

/-- Python truthiness of an optional string: `None` and `""` are falsy. -/
def strTruthy : Option String → Bool
  | Option.none => false
  | Option.some s => s ≠ ""

/-- Split a character list on a separator character (like
`str.split(sep)` for a single-character separator). -/
def splitOnChar (sep : Char) : List Char → List (List Char)
  | [] => [[]]
  | c :: cs =>
    let rest := splitOnChar sep cs
    if c = sep then [] :: rest
    else
      match rest with
      | [] => [[c]]
      | r :: rs => (c :: r) :: rs

/-- `[0-9]{1,2}`: one or two ASCII digits. -/
def digits12 (l : List Char) : Bool :=
  (l.length == 1 || l.length == 2) && l.all Char.isDigit

/-- The final colon-separated segment: `[0-9]{1,2}` optionally followed by
`\.[0-9]{1,9}`. -/
def lastSeg (l : List Char) : Bool :=
  match splitOnChar '.' l with
  | [d] => digits12 d
  | [d, f] => digits12 d && decide (1 ≤ f.length) && decide (f.length ≤ 9) && f.all Char.isDigit
  | _ => false

/-- The body of the timestamp regex
`[0-9]{1,2}(:[0-9]{1,2}){1,2}(\.[0-9]{1,9})?`, matched against a whole
character list. -/
def tsBody (l : List Char) : Bool :=
  match splitOnChar ':' l with
  | [a, b] => digits12 a && lastSeg b
  | [a, b, c] => digits12 a && digits12 b && lastSeg c
  | _ => false

/-- The body preceded by `\+?`: an optional leading plus sign. -/
def tsBodyPlus (l : List Char) : Bool :=
  match l with
  | '+' :: rest => tsBody rest
  | _ => tsBody l

/-- Python's `$` anchor matches at the end of the string or just before a
single trailing newline. -/
def matchDollar (core : List Char → Bool) (l : List Char) : Bool :=
  core l || (l.getLast? == Option.some '\n' && core l.dropLast)

/-- `re.match('^[0-9]{1,2}(:[0-9]{1,2}){1,2}(\.[0-9]{1,9})?$', s)` viewed
as a boolean. -/
def tsMatch (s : String) : Bool :=
  matchDollar tsBody s.data

/-- `re.match('^\+?[0-9]{1,2}(:[0-9]{1,2}){1,2}(\.[0-9]{1,9})?$', s)`
viewed as a boolean. -/
def tsMatchPlus (s : String) : Bool :=
  matchDollar tsBodyPlus s.data

/-- `MKVFile.check_ts(timestamp, plus)`.  Faithfully reproduces the source:
the first regex succeeding returns `True`; the `plus` branch succeeding
executes a bare `return`, i.e. returns `None`; strings matching neither
return `False`; ints return `True`; any other value returns `False`. -/
def check_ts (timestamp : PyVal) (plus : Bool) : PyTruth :=
  match timestamp with
  | .str s =>
    if tsMatch s then .tru
    else if plus && tsMatchPlus s then .noneVal
    else .fls
  | .int _ => .tru
  | .none => .fls

/-- One track of an MKV file.  `MKVTrack` itself lives outside this file's
sources; modelled from the spec: a plain record of metadata fields (source
path, in-file id, type, name, language, default/forced flags, chapter
exclusion) with no integer conversion. -/
structure MKVTrack where
  path : String
  track_id : Int
  track_name : Option String
  language : Option String
  default_track : Bool
  forced_track : Bool
  track_type : String
  exclude_chapters : Bool
deriving DecidableEq

/-- The state of an `MKVFile` object. -/
structure MKVFile where
  mkvmerge_path : String
  title : Option String
  chapters : Option String
  chapter_language : Option String
  tracks : List MKVTrack
  path : Option String
  _split_options : List String
deriving DecidableEq

/-- Environment facts consulted by the methods: path expansion, file
existence, and the text of the `ISO639-2.txt` reference file. -/
structure Env where
  expanduser : String → String
  isfile : String → Bool
  iso639_2_text : String

/-- A freshly constructed `MKVFile()` (no path, no title). -/
def emptyFile : MKVFile :=
  { mkvmerge_path := "mkvmerge", title := Option.none, chapters := Option.none,
    chapter_language := Option.none, tracks := [], path := Option.none,
    _split_options := [] }

/-- Does `needle` occur at the start of the second list? -/
def startsWithChars : List Char → List Char → Bool
  | [], _ => true
  | _ :: _, [] => false
  | a :: as, b :: bs => a == b && startsWithChars as bs

/-- Does `needle` occur anywhere in the second list? -/
def containsChars (needle : List Char) : List Char → Bool
  | [] => startsWithChars needle []
  | c :: t => startsWithChars needle (c :: t) || containsChars needle t

/-- Python's substring test `needle in haystack` for strings. -/
def strContains (haystack needle : String) : Bool :=
  containsChars needle.data haystack.data

/-- `MKVFile.add_chapters(chapters, language)`.  Note the source stores the
expanded path into `self.chapters` before the `isfile` check, and tests the
language by substring membership in the text of `ISO639-2.txt`. -/
def add_chapters (env : Env) (m : MKVFile) (chapters : String)
    (language : Option String) : MKVFile × Option Err :=
  let m1 : MKVFile := { m with chapters := Option.some (env.expanduser chapters) }
  if ¬ env.isfile (env.expanduser chapters) then
    (m1, Option.some Err.fileNotFoundError)
  else if strTruthy language then
    if strContains env.iso639_2_text (language.getD "") then
      ({ m1 with chapter_language := language }, Option.none)
    else
      (m1, Option.some Err.valueError)
  else
    (m1, Option.none)

/-- `MKVFile.remove_track(track_num)`. -/
def remove_track (m : MKVFile) (track_num : Int) : MKVFile × Option Err :=
  if 0 ≤ track_num ∧ track_num < (m.tracks.length : Int) then
    ({ m with tracks := m.tracks.eraseIdx track_num.toNat }, Option.none)
  else
    (m, Option.some Err.indexError)

/-- `MKVFile.exclude_internal_chapters()`. -/
def exclude_internal_chapters (m : MKVFile) : MKVFile :=
  { m with tracks := m.tracks.map fun t => { t with exclude_chapters := true } }

/-- The argument handed to `list.pop`: either a Python `int` or some other
object (here, an `MKVTrack`). -/
inductive PopArg
  | int (n : Int)
  | obj (t : MKVTrack)

/-- Python `list.pop(arg)`: requires an argument usable as an integer
index; an `MKVTrack` object is not, so passing one raises `TypeError`.
Negative integer indices count from the end. -/
def listPop (l : List MKVTrack) : PopArg → Except Err (MKVTrack × List MKVTrack)
  | .obj _ => Except.error Err.typeError
  | .int n =>
    let k : Int := if n < 0 then n + l.length else n
    if 0 ≤ k ∧ k < (l.length : Int) then
      match l.get? k.toNat with
      | Option.some t => Except.ok (t, l.eraseIdx k.toNat)
      | Option.none => Except.error Err.indexError
    else
      Except.error Err.indexError

/-- `MKVFile.move_track_front(track_num)`.  The source executes
`self.tracks.insert(0, self.tracks.pop(self.tracks[track_num]))`, handing
the track object itself (not the index) to `list.pop`. -/
def move_track_front (m : MKVFile) (track_num : Int) : MKVFile × Option Err :=
  if 0 ≤ track_num ∧ track_num < (m.tracks.length : Int) then
    match m.tracks.get? track_num.toNat with
    | Option.some t =>
      match listPop m.tracks (.obj t) with
      | Except.error e => (m, Option.some e)
      | Except.ok (x, rest) => ({ m with tracks := x :: rest }, Option.none)
    | Option.none => (m, Option.some Err.indexError)
  else
    (m, Option.some Err.indexError)

/-- `MKVFile.move_track_end(track_num)`.  The source executes
`self.tracks.append(self.tracks.pop(self.tracks[track_num]))`, handing the
track object itself (not the index) to `list.pop`. -/
def move_track_end (m : MKVFile) (track_num : Int) : MKVFile × Option Err :=
  if 0 ≤ track_num ∧ track_num < (m.tracks.length : Int) then
    match m.tracks.get? track_num.toNat with
    | Option.some t =>
      match listPop m.tracks (.obj t) with
      | Except.error e => (m, Option.some e)
      | Except.ok (x, rest) => ({ m with tracks := rest ++ [x] }, Option.none)
    | Option.none => (m, Option.some Err.indexError)
  else
    (m, Option.some Err.indexError)

/-- The simultaneous assignment `l[i], l[j] = l[j], l[i]`. -/
def listSwap (l : List MKVTrack) (i j : Nat) : List MKVTrack :=
  match l.get? i, l.get? j with
  | Option.some a, Option.some b => (l.set i b).set j a
  | _, _ => l

/-- `MKVFile.move_track_forward(track_num)`. -/
def move_track_forward (m : MKVFile) (track_num : Int) : MKVFile × Option Err :=
  if 0 ≤ track_num ∧ track_num < (m.tracks.length : Int) - 1 then
    ({ m with tracks := listSwap m.tracks track_num.toNat (track_num.toNat + 1) },
      Option.none)
  else
    (m, Option.some Err.indexError)

/-- `MKVFile.move_track_backward(track_num)`. -/
def move_track_backward (m : MKVFile) (track_num : Int) : MKVFile × Option Err :=
  if 0 < track_num ∧ track_num < (m.tracks.length : Int) then
    ({ m with tracks := listSwap m.tracks track_num.toNat (track_num.toNat - 1) },
      Option.none)
  else
    (m, Option.some Err.indexError)

/-- `MKVFile.swap_tracks(track_num_1, track_num_2)`. -/
def swap_tracks (m : MKVFile) (track_num_1 track_num_2 : Int) : MKVFile × Option Err :=
  if (0 ≤ track_num_1 ∧ track_num_1 < (m.tracks.length : Int)) ∧
      (0 ≤ track_num_2 ∧ track_num_2 < (m.tracks.length : Int)) then
    ({ m with tracks := listSwap m.tracks track_num_1.toNat track_num_2.toNat },
      Option.none)
  else
    (m, Option.some Err.indexError)

/-- `MKVFile.replace_track(track_num, track)`. -/
def replace_track (m : MKVFile) (track_num : Int) (track : MKVTrack) :
    MKVFile × Option Err :=
  if 0 ≤ track_num ∧ track_num < (m.tracks.length : Int) then
    ({ m with tracks := m.tracks.set track_num.toNat track }, Option.none)
  else
    (m, Option.some Err.indexError)

/-- The argument of `split_size`: a `bitmath` size object (modelled by its
byte count, kept integral), a Python `int`, or any other value. -/
inductive SizeArg
  | bitmath (bytes : Int)
  | int (n : Int)
  | other

/-- Python `s[:-1]`: the string without its final character. -/
def strDropLast (s : String) : String :=
  String.mk s.data.dropLast

/-- `MKVFile.split_size(size)`. -/
def split_size (m : MKVFile) (size : SizeArg) : MKVFile × Option Err :=
  match size with
  | .bitmath b =>
    ({ m with _split_options := ["--split", "size:" ++ toString b] }, Option.none)
  | .int n =>
    ({ m with _split_options := ["--split", "size:" ++ toString n] }, Option.none)
  | .other => (m, Option.some Err.typeError)

/-- `MKVFile.split_duration(duration)`. -/
def split_duration (m : MKVFile) (duration : PyVal) : MKVFile × Option Err :=
  match duration with
  | .str s =>
    if (check_ts (.str s) false).truthy then
      ({ m with _split_options := ["--split", "duration:" ++ s] }, Option.none)
    else
      (m, Option.some Err.typeError)
  | .int n =>
    ({ m with _split_options := ["--split", "duration:" ++ toString n ++ "s"] },
      Option.none)
  | .none => (m, Option.some Err.typeError)

/-- An element of the variadic argument of `split_timestamps`: a leaf value
or a nested list. -/
inductive TsArg
  | leaf (v : PyVal)
  | list (items : List TsArg)

mutual

/-- `MKVFile.flatten(item)` on a single item. -/
def flatten : TsArg → List PyVal
  | .leaf v => [v]
  | .list items => flattenList items

/-- `MKVFile.flatten` applied to a list or tuple: extend with the
flattening of each element, in order. -/
def flattenList : List TsArg → List PyVal
  | [] => []
  | i :: rest => flatten i ++ flattenList rest

end

/-- The loop of `split_timestamps` over the flattened leaves, accumulating
the `timestamps:` string; errors abort the call. -/
def tsRender : List PyVal → String → Except Err String
  | [], acc => Except.ok acc
  | v :: rest, acc =>
    match v with
    | .int n => tsRender rest (acc ++ toString n ++ "s" ++ ",")
    | .str s =>
      if (check_ts (.str s) false).truthy then tsRender rest (acc ++ s ++ ",")
      else Except.error Err.valueError
    | .none => Except.error Err.typeError

/-- `MKVFile.split_timestamps(*timestamps)`. -/
def split_timestamps (m : MKVFile) (timestamps : List TsArg) : MKVFile × Option Err :=
  if timestamps.length = 0 then
    (m, Option.some Err.valueError)
  else
    match tsRender (flattenList timestamps) "timestamps:" with
    | Except.error e => (m, Option.some e)
    | Except.ok s =>
      ({ m with _split_options := ["--split", strDropLast s] }, Option.none)

/-- An element of the argument of `split_parts`: a two-element pair of
Python values, or a malformed (non-pair) object. -/
inductive PartArg
  | pair (a b : PyVal)
  | malformed

/-- Render one pair member: ints get an `s` suffix, strings are taken
verbatim, `None` renders empty. -/
def renderPart : PyVal → String
  | .int n => toString n ++ "s"
  | .str s => s
  | .none => ""

/-- The loop of `split_parts` over the pairs, accumulating the `parts:`
string; errors abort the call. -/
def partsRender : List PartArg → String → Except Err String
  | [], acc => Except.ok acc
  | .malformed :: _, _ => Except.error Err.valueError
  | .pair a b :: rest, acc =>
    if a ≠ .none ∧ ¬ (check_ts a true).truthy then Except.error Err.valueError
    else if b ≠ .none ∧ ¬ (check_ts b false).truthy then Except.error Err.valueError
    else if a = b then Except.error Err.valueError
    else partsRender rest (acc ++ renderPart a ++ "-" ++ renderPart b ++ ",")

/-- `MKVFile.split_parts(parts)`. -/
def split_parts (m : MKVFile) (parts : List PartArg) : MKVFile × Option Err :=
  if parts.length = 0 then
    (m, Option.some Err.valueError)
  else
    match partsRender parts "parts:" with
    | Except.error e => (m, Option.some e)
    | Except.ok s =>
      ({ m with _split_options := ["--split", strDropLast s] }, Option.none)

/-- The body of the per-track loop of `MKVFile.command`, appending one
track's flags to the command built so far. -/
def trackFlagStep (cmd : List String) (track : MKVTrack) : List String :=
  let cmd := if strTruthy track.track_name then
      cmd ++ ["--track-name", toString track.track_id ++ ":" ++ track.track_name.getD ""]
    else cmd
  let cmd := if strTruthy track.language then
      cmd ++ ["--language", toString track.track_id ++ ":" ++ track.language.getD ""]
    else cmd
  let cmd := if track.default_track then cmd
    else cmd ++ ["--default-track", toString track.track_id ++ ":0"]
  let cmd := if track.forced_track then
      cmd ++ ["--forced-track", toString track.track_id ++ ":1"]
    else cmd
  let cmd := if track.track_type ≠ "video" then cmd ++ ["-D"]
    else cmd ++ ["-d", toString track.track_id]
  let cmd := if track.track_type ≠ "audio" then cmd ++ ["-A"]
    else cmd ++ ["-a", toString track.track_id]
  let cmd := if track.track_type ≠ "subtitles" then cmd ++ ["-S"]
    else cmd ++ ["-s", toString track.track_id]
  let cmd := if track.exclude_chapters then cmd ++ ["--no-chapters"] else cmd
  cmd ++ [track.path]

/-- `MKVFile.command(output_file, subprocess=True)`: the argument list. -/
def command (env : Env) (m : MKVFile) (output_file : String) : List String :=
  let cmd := [m.mkvmerge_path, "-o", env.expanduser output_file]
  let cmd := if strTruthy m.title then cmd ++ ["--title", m.title.getD ""] else cmd
  let cmd := m.tracks.foldl trackFlagStep cmd
  let cmd := if strTruthy m.chapter_language then
      cmd ++ ["--chapter-language", m.chapter_language.getD ""]
    else cmd
  let cmd := if strTruthy m.chapters then cmd ++ ["--chapters", m.chapters.getD ""] else cmd
  cmd ++ m._split_options

/-- `MKVFile.command(output_file)` with `subprocess=False`: the
space-joined command string. -/
def command_string (env : Env) (m : MKVFile) (output_file : String) : String :=
  String.intercalate " " (command env m output_file)

/-- Specification-side view: the flags one track contributes, as a
self-contained list. -/
def trackArgs (track : MKVTrack) : List String :=
  (if strTruthy track.track_name then
    ["--track-name", toString track.track_id ++ ":" ++ track.track_name.getD ""]
  else []) ++
  (if strTruthy track.language then
    ["--language", toString track.track_id ++ ":" ++ track.language.getD ""]
  else []) ++
  (if track.default_track then []
  else ["--default-track", toString track.track_id ++ ":0"]) ++
  (if track.forced_track then ["--forced-track", toString track.track_id ++ ":1"]
  else []) ++
  (if track.track_type ≠ "video" then ["-D"] else ["-d", toString track.track_id]) ++
  (if track.track_type ≠ "audio" then ["-A"] else ["-a", toString track.track_id]) ++
  (if track.track_type ≠ "subtitles" then ["-S"] else ["-s", toString track.track_id]) ++
  (if track.exclude_chapters then ["--no-chapters"] else []) ++
  [track.path]

/-- Specification-side view: the title flag segment. -/
def titleArgs (m : MKVFile) : List String :=
  if strTruthy m.title then ["--title", m.title.getD ""] else []

/-- Specification-side view: the chapter-language flag segment. -/
def chapterLangArgs (m : MKVFile) : List String :=
  if strTruthy m.chapter_language then
    ["--chapter-language", m.chapter_language.getD ""]
  else []

/-- Specification-side view: the chapters-file flag segment. -/
def chaptersArgs (m : MKVFile) : List String :=
  if strTruthy m.chapters then ["--chapters", m.chapters.getD ""] else []

/-- Modelled from the spec: the repository consults a fixed reference file
`ISO639-2.txt` (not present under src/) holding the ISO639-2 language
codes; modelled here by a representative list of codes. -/
def iso639_2_codes : List String :=
  ["eng", "fre", "ger", "ita", "jpn", "spa", "und"]

/-- Modelled from the spec: the text of `ISO639-2.txt`, one code per
line. -/
def iso639_2_text : String :=
  String.intercalate "\n" iso639_2_codes

/-- A sample video track: named, English, not default, not forced. -/
def sampleTrack : MKVTrack :=
  { path := "movie.mkv", track_id := 0, track_name := Option.some "Track1",
    language := Option.some "eng", default_track := false, forced_track := false,
    track_type := "video", exclude_chapters := false }

/-- A sample container holding exactly `sampleTrack`. -/
def sampleFile : MKVFile :=
  { emptyFile with tracks := [sampleTrack] }

/-- A sample environment: trivial path expansion, no file exists. -/
def envNoFile : Env :=
  { expanduser := id, isfile := fun _ => false, iso639_2_text := iso639_2_text }

/-- A sample environment: trivial path expansion, every file exists. -/
def envAllFiles : Env :=
  { expanduser := id, isfile := fun _ => true, iso639_2_text := iso639_2_text }

/-- Specification-side view: a leaf value `split_timestamps` accepts — an
int, or a string matching the timestamp pattern. -/
def validTsLeaf : PyVal → Bool
  | .int _ => true
  | .str s => tsMatch s
  | .none => false

/-- Specification-side view: how one accepted leaf is rendered. -/
def renderLeaf : PyVal → String
  | .int n => toString n ++ "s"
  | .str s => s
  | .none => ""

/-- Concatenate a list of strings. -/
def joinAll : List String → String
  | [] => ""
  | s :: rest => s ++ joinAll rest

lemma tsRender_ok (l : List PyVal) (acc : String)
    (h : ∀ v ∈ l, validTsLeaf v = true) :
    tsRender l acc = Except.ok (acc ++ joinAll (l.map fun v => renderLeaf v ++ ",")) := by
  induction l generalizing acc with
  | nil => simp [tsRender, joinAll]
  | cons v rest ih =>
    have hrest : ∀ w ∈ rest, validTsLeaf w = true :=
      fun w hw => h w (List.mem_cons_of_mem v hw)
    cases v with
    | int n =>
      rw [tsRender, ih _ hrest]
      simp [joinAll, renderLeaf, String.append_assoc]
    | str s =>
      have hv := h (PyVal.str s) (List.mem_cons_self _ rest)
      have hs : tsMatch s = true := by simpa [validTsLeaf] using hv
      rw [tsRender]
      simp only [check_ts, hs, if_pos, PyTruth.truthy, if_true]
      rw [ih _ hrest]
      simp [joinAll, renderLeaf, String.append_assoc]
    | none =>
      have hv := h PyVal.none (List.mem_cons_self _ rest)
      simp [validTsLeaf] at hv

lemma tsRender_err (l : List PyVal) (acc : String)
    (h : ∃ v ∈ l, validTsLeaf v = false) :
    ∃ e, tsRender l acc = Except.error e := by
  induction l generalizing acc with
  | nil => simp at h
  | cons v rest ih =>
    obtain ⟨w, hw, hbad⟩ := h
    cases v with
    | int n =>
      rcases List.mem_cons.mp hw with heq | hmem
      · rw [heq] at hbad; simp [validTsLeaf] at hbad
      · exact ih _ ⟨w, hmem, hbad⟩
    | str s =>
      by_cases hs : tsMatch s = true
      · rcases List.mem_cons.mp hw with heq | hmem
        · rw [heq] at hbad; simp [validTsLeaf, hs] at hbad
        · rw [tsRender]
          simp only [check_ts, hs, PyTruth.truthy, if_true]
          exact ih _ ⟨w, hmem, hbad⟩
      · refine ⟨Err.valueError, ?_⟩
        rw [tsRender]
        simp [check_ts, hs, PyTruth.truthy]
    | none => exact ⟨Err.typeError, by rw [tsRender]⟩

lemma trackFlagStep_eq (cmd : List String) (t : MKVTrack) :
    trackFlagStep cmd t = cmd ++ trackArgs t := by
  by_cases h1 : strTruthy t.track_name = true <;>
    by_cases h2 : strTruthy t.language = true <;>
    by_cases h3 : t.default_track = true <;>
    by_cases h4 : t.forced_track = true <;>
    by_cases h5 : t.track_type = "video" <;>
    by_cases h6 : t.track_type = "audio" <;>
    by_cases h7 : t.track_type = "subtitles" <;>
    by_cases h8 : t.exclude_chapters = true <;>
    simp [trackFlagStep, trackArgs, h1, h2, h3, h4, h5, h6, h7, h8, List.append_assoc]

lemma foldl_trackFlagStep (l : List MKVTrack) (cmd : List String) :
    l.foldl trackFlagStep cmd = cmd ++ (l.map trackArgs).join := by
  induction l generalizing cmd with
  | nil => simp
  | cons t rest ih =>
    simp [List.foldl_cons, trackFlagStep_eq, ih, List.append_assoc]

lemma command_decomposition (env : Env) (m : MKVFile) (out : String) :
    command env m out
      = [m.mkvmerge_path, "-o", env.expanduser out] ++ titleArgs m
        ++ (m.tracks.map trackArgs).join ++ chapterLangArgs m ++ chaptersArgs m
        ++ m._split_options := by
  by_cases h1 : strTruthy m.title = true <;>
    by_cases h2 : strTruthy m.chapter_language = true <;>
    by_cases h3 : strTruthy m.chapters = true <;>
    simp [command, titleArgs, chapterLangArgs, chaptersArgs, foldl_trackFlagStep,
      h1, h2, h3, List.append_assoc]

/-- Claim C9: `split_size(700_000_000)` sets the directive `size:700000000`;
`split_size` rejects non-numeric input with an error;
`split_duration("01:30:00")` serializes to `duration:01:30:00`; and
`split_duration(90)` serializes to `duration:90s`. -/
theorem c9_split_serialization (m : MKVFile) :
    split_size m (SizeArg.int 700000000)
      = ({ m with _split_options := ["--split", "size:700000000"] }, Option.none) ∧
    split_size m SizeArg.other = (m, Option.some Err.typeError) ∧
    split_duration m (PyVal.str "01:30:00")
      = ({ m with _split_options := ["--split", "duration:01:30:00"] }, Option.none) ∧
    split_duration m (PyVal.int 90)
      = ({ m with _split_options := ["--split", "duration:90s"] }, Option.none) :=
  ⟨rfl, rfl, rfl, rfl⟩

/-- Claim C2 (code-bug evidence): a pair whose start timestamp carries a
leading `+` is rejected by `split_parts` with a `ValueError` — because the
`plus` branch of `check_ts` executes a bare `return`, yielding the falsy
Python `None` — although the source's docstrings say such timestamps are
accepted.  The other two parts of the claim do hold: a `+` on the end
member is rejected, and an identical non-absent start/end pair is
rejected. -/
theorem c2_split_parts_plus_rejected (m : MKVFile) :
    check_ts (PyVal.str "+01:02:03") true = PyTruth.noneVal ∧
    split_parts m [PartArg.pair (PyVal.str "+01:02:03") (PyVal.str "02:03:04")]
      = (m, Option.some Err.valueError) ∧
    split_parts m [PartArg.pair (PyVal.str "01:02:03") (PyVal.str "+02:03:04")]
      = (m, Option.some Err.valueError) ∧
    split_parts m [PartArg.pair (PyVal.str "01:02:03") (PyVal.str "01:02:03")]
      = (m, Option.some Err.valueError) :=
  ⟨rfl, rfl, rfl, rfl⟩

/-- Claim C3 (amended): when the chapters path does not resolve to an
existing file, `add_chapters` raises the not-found error and leaves every
field except `chapters` unchanged — but `chapters` has already been set to
the expanded path before the validation check. -/
theorem c3_add_chapters_not_found (env : Env) (m : MKVFile) (chapters : String)
    (language : Option String)
    (h : env.isfile (env.expanduser chapters) = false) :
    add_chapters env m chapters language
      = ({ m with chapters := Option.some (env.expanduser chapters) },
          Option.some Err.fileNotFoundError) := by
  simp [add_chapters, h]

/-- Claim C3 counterexample: calling `add_chapters` on a fresh container
with a path that does not exist raises the not-found error, yet the
container's `chapters` field has been mutated — refuting the claim that
the state is exactly as before the call. -/
theorem c3_counterexample :
    (add_chapters envNoFile emptyFile "chapters.xml" Option.none).2
      = Option.some Err.fileNotFoundError ∧
    (add_chapters envNoFile emptyFile "chapters.xml" Option.none).1.chapters
      ≠ emptyFile.chapters :=
  ⟨rfl, by decide⟩

/-- Claim C3 witness. -/
theorem c3_witness :
    add_chapters envNoFile emptyFile "chapters.xml" Option.none
      = ({ emptyFile with chapters := Option.some "chapters.xml" },
          Option.some Err.fileNotFoundError) :=
  c3_add_chapters_not_found envNoFile emptyFile "chapters.xml" Option.none rfl

/-- Claim C10: `exclude_internal_chapters` sets the `exclude_chapters`
flag of every track and changes nothing else: track-list length, every
other field of every track, and all container-level fields are
unchanged. -/
theorem c10_exclude_internal_chapters (m : MKVFile) (k : Nat) (t t' : MKVTrack)
    (h1 : m.tracks.get? k = Option.some t)
    (h2 : (exclude_internal_chapters m).tracks.get? k = Option.some t') :
    (exclude_internal_chapters m).tracks.length = m.tracks.length ∧
    t'.exclude_chapters = true ∧
    t'.path = t.path ∧ t'.track_id = t.track_id ∧ t'.track_name = t.track_name ∧
    t'.language = t.language ∧ t'.default_track = t.default_track ∧
    t'.forced_track = t.forced_track ∧ t'.track_type = t.track_type ∧
    (exclude_internal_chapters m).title = m.title ∧
    (exclude_internal_chapters m).chapters = m.chapters ∧
    (exclude_internal_chapters m).chapter_language = m.chapter_language ∧
    (exclude_internal_chapters m)._split_options = m._split_options ∧
    (exclude_internal_chapters m).mkvmerge_path = m.mkvmerge_path ∧
    (exclude_internal_chapters m).path = m.path := by
  have hmap : (exclude_internal_chapters m).tracks.get? k
      = Option.map (fun t => { t with exclude_chapters := true }) (m.tracks.get? k) := by
    simp [exclude_internal_chapters, List.get?_map]
  rw [h1] at hmap
  have ht : t' = { t with exclude_chapters := true } :=
    (Option.some.inj (hmap.symm.trans h2)).symm
  subst ht
  simp [exclude_internal_chapters]

/-- Claim C10 witness. -/
theorem c10_witness :
    (exclude_internal_chapters sampleFile).tracks.length = sampleFile.tracks.length :=
  (c10_exclude_internal_chapters sampleFile 0 sampleTrack
    { sampleTrack with exclude_chapters := true } rfl rfl).1

/-- Claim C7: every index-based track operation raises the out-of-range
error exactly when its index lies outside the stated valid range —
`[0, length)` for `remove_track`, `swap_tracks` (both indices) and
`replace_track`, `[0, length-1)` for `move_track_forward`, `(0, length)`
for `move_track_backward` — and performs no mutation in that case. -/
theorem c7_index_ranges (m : MKVFile) (i j : Int) (t : MKVTrack) :
    ((remove_track m i).2 = Option.none ↔ 0 ≤ i ∧ i < (m.tracks.length : Int)) ∧
    ((remove_track m i).2 ≠ Option.none →
      remove_track m i = (m, Option.some Err.indexError)) ∧
    ((swap_tracks m i j).2 = Option.none ↔
      (0 ≤ i ∧ i < (m.tracks.length : Int)) ∧ (0 ≤ j ∧ j < (m.tracks.length : Int))) ∧
    ((swap_tracks m i j).2 ≠ Option.none →
      swap_tracks m i j = (m, Option.some Err.indexError)) ∧
    ((replace_track m i t).2 = Option.none ↔ 0 ≤ i ∧ i < (m.tracks.length : Int)) ∧
    ((replace_track m i t).2 ≠ Option.none →
      replace_track m i t = (m, Option.some Err.indexError)) ∧
    ((move_track_forward m i).2 = Option.none ↔
      0 ≤ i ∧ i < (m.tracks.length : Int) - 1) ∧
    ((move_track_forward m i).2 ≠ Option.none →
      move_track_forward m i = (m, Option.some Err.indexError)) ∧
    ((move_track_backward m i).2 = Option.none ↔
      0 < i ∧ i < (m.tracks.length : Int)) ∧
    ((move_track_backward m i).2 ≠ Option.none →
      move_track_backward m i = (m, Option.some Err.indexError)) := by
  refine ⟨?_, ?_, ?_, ?_, ?_, ?_, ?_, ?_, ?_, ?_⟩ <;>
    · simp only [remove_track, swap_tracks, replace_track, move_track_forward,
        move_track_backward]
      split <;> simp_all

/-- Claim C7 witness. -/
theorem c7_witness :
    remove_track emptyFile 3 = (emptyFile, Option.some Err.indexError) :=
  (c7_index_ranges emptyFile 3 0 sampleTrack).2.1 (by decide)

/-- Claim C8: every successful call to `split_size`, `split_duration`,
`split_timestamps` or `split_parts` leaves the split options consisting
solely of the single directive determined by that call's arguments,
independently of any previously configured split state, so at most one
`--split` directive is ever active. -/
theorem c8_split_last_wins (m : MKVFile) (sz : SizeArg) (d : PyVal)
    (tss : List TsArg) (ps : List PartArg) :
    ((split_size m sz).2 = Option.none →
      ∃ s, ∀ m' : MKVFile,
        split_size m' sz
          = ({ m' with _split_options := ["--split", s] }, Option.none)) ∧
    ((split_duration m d).2 = Option.none →
      ∃ s, ∀ m' : MKVFile,
        split_duration m' d
          = ({ m' with _split_options := ["--split", s] }, Option.none)) ∧
    ((split_timestamps m tss).2 = Option.none →
      ∃ s, ∀ m' : MKVFile,
        split_timestamps m' tss
          = ({ m' with _split_options := ["--split", s] }, Option.none)) ∧
    ((split_parts m ps).2 = Option.none →
      ∃ s, ∀ m' : MKVFile,
        split_parts m' ps
          = ({ m' with _split_options := ["--split", s] }, Option.none)) := by
  refine ⟨?_, ?_, ?_, ?_⟩
  · cases sz with
    | bitmath b => exact fun _ => ⟨"size:" ++ toString b, fun m' => rfl⟩
    | int n => exact fun _ => ⟨"size:" ++ toString n, fun m' => rfl⟩
    | other => intro h; simp [split_size] at h
  · cases d with
    | str s =>
      intro h
      by_cases hc : (check_ts (PyVal.str s) false).truthy = true
      · exact ⟨"duration:" ++ s, fun m' => by simp [split_duration, hc]⟩
      · simp [split_duration, hc] at h
    | int n => exact fun _ => ⟨"duration:" ++ toString n ++ "s", fun m' => rfl⟩
    | none => intro h; simp [split_duration] at h
  · intro h
    by_cases h0 : tss.length = 0
    · simp [split_timestamps, h0] at h
    · cases hr : tsRender (flattenList tss) "timestamps:" with
      | error e => simp [split_timestamps, h0, hr] at h
      | ok s =>
        exact ⟨strDropLast s, fun m' => by simp [split_timestamps, h0, hr]⟩
  · intro h
    by_cases h0 : ps.length = 0
    · simp [split_parts, h0] at h
    · cases hr : partsRender ps "parts:" with
      | error e => simp [split_parts, h0, hr] at h
      | ok s =>
        exact ⟨strDropLast s, fun m' => by simp [split_parts, h0, hr]⟩

/-- Claim C8 witness. -/
theorem c8_witness : (split_size emptyFile (SizeArg.int 1000)).2 = Option.none := by
  obtain ⟨s, hs⟩ :=
    (c8_split_last_wins emptyFile (SizeArg.int 1000) (PyVal.int 0) [] []).1 rfl
  rw [hs emptyFile]

/-- Claim C1 (code-bug evidence): for every in-range index,
`move_track_front` and `move_track_end` raise `TypeError` and move
nothing, because the source hands the track object itself — not the
index — to `list.pop` (`self.tracks.pop(self.tracks[track_num])`),
contradicting its own docstrings. -/
theorem c1_move_track_type_error (m : MKVFile) (i : Int)
    (h0 : 0 ≤ i) (h1 : i < (m.tracks.length : Int)) :
    move_track_front m i = (m, Option.some Err.typeError) ∧
    move_track_end m i = (m, Option.some Err.typeError) := by
  have hk : i.toNat < m.tracks.length := by omega
  have ht : m.tracks.get? i.toNat = Option.some (m.tracks.get ⟨i.toNat, hk⟩) :=
    List.get?_eq_get hk
  constructor
  · unfold move_track_front
    rw [if_pos (⟨h0, h1⟩ : 0 ≤ i ∧ i < (m.tracks.length : Int)), ht]
    rfl
  · unfold move_track_end
    rw [if_pos (⟨h0, h1⟩ : 0 ≤ i ∧ i < (m.tracks.length : Int)), ht]
    rfl

/-- Claim C1 witness. -/
theorem c1_witness :
    move_track_front sampleFile 0 = (sampleFile, Option.some Err.typeError) ∧
    move_track_end sampleFile 0 = (sampleFile, Option.some Err.typeError) :=
  c1_move_track_type_error sampleFile 0 (by decide) (by decide)

/-- Claim C4 (amended): `split_timestamps` rejects a call with no
arguments and rejects any non-timestamp string leaf; on acceptance it
flattens nested lists into a flat sequence preserving left-to-right leaf
order.  However, a nonempty argument sequence that flattens to zero
leaves is NOT rejected: only the syntactic argument count is checked, so
such a call succeeds (producing the malformed directive `timestamps`, the
trailing colon having been stripped). -/
theorem c4_split_timestamps (m : MKVFile) (args : List TsArg) :
    (split_timestamps m []).2 = Option.some Err.valueError ∧
    (split_timestamps m [TsArg.leaf (PyVal.str "abc")]).2
      = Option.some Err.valueError ∧
    (args ≠ [] → (∀ v ∈ flattenList args, validTsLeaf v = true) →
      split_timestamps m args
        = ({ m with _split_options := ["--split",
              strDropLast ("timestamps:" ++
                joinAll ((flattenList args).map fun v => renderLeaf v ++ ","))] },
            Option.none)) ∧
    ((∃ v ∈ flattenList args, validTsLeaf v = false) →
      (split_timestamps m args).2.isSome = true) := by
  refine ⟨rfl, rfl, ?_, ?_⟩
  · intro hne hval
    have h0 : ¬ args.length = 0 := by
      simpa [List.length_eq_zero] using hne
    rw [split_timestamps, if_neg h0, tsRender_ok (flattenList args) "timestamps:" hval]
  · intro hex
    by_cases h0 : args.length = 0
    · simp [split_timestamps, h0]
    · obtain ⟨e, he⟩ := tsRender_err (flattenList args) "timestamps:" hex
      simp [split_timestamps, h0, he]

/-- Claim C4 counterexample: the call `split_timestamps([])` — one
argument, an empty list — flattens to zero leaves yet succeeds, refuting
the claim that every call whose arguments flatten to zero leaves is
rejected. -/
theorem c4_counterexample :
    flattenList [TsArg.list []] = [] ∧
    (split_timestamps emptyFile [TsArg.list []]).2 = Option.none ∧
    (split_timestamps emptyFile [TsArg.list []]).1._split_options
      = ["--split", "timestamps"] :=
  ⟨rfl, rfl, rfl⟩

/-- Claim C4 witness. -/
theorem c4_witness :
    split_timestamps emptyFile
        [TsArg.leaf (PyVal.int 10), TsArg.list [TsArg.leaf (PyVal.str "01:30:00")]]
      = ({ emptyFile with
            _split_options := ["--split", "timestamps:10s,01:30:00"] },
          Option.none) := by
  have h := (c4_split_timestamps emptyFile
    [TsArg.leaf (PyVal.int 10), TsArg.list [TsArg.leaf (PyVal.str "01:30:00")]]).2.2.1
    (List.cons_ne_nil _ _) (by decide)
  exact h

/-- Claim C5 (amended): with an existing chapters file, a nonempty
language code is accepted (and stored as `chapter_language`) if and only
if it occurs as a substring of the ISO639-2 reference file's text — not
iff it is one of the listed codes.  Every listed code is a substring of
the text, hence accepted, but so are other fragments (see the
counterexample). -/
theorem c5_language_substring (env : Env) (m : MKVFile) (chap : String)
    (lang : String) (hfile : env.isfile (env.expanduser chap) = true)
    (hne : lang ≠ "") :
    ((add_chapters env m chap (Option.some lang)).2 = Option.none ↔
      strContains env.iso639_2_text lang = true) ∧
    ((add_chapters env m chap (Option.some lang)).2 = Option.none →
      (add_chapters env m chap (Option.some lang)).1.chapter_language
        = Option.some lang) ∧
    (∀ c ∈ iso639_2_codes, strContains iso639_2_text c = true) := by
  have htr : strTruthy (Option.some lang) = true := by simp [strTruthy, hne]
  refine ⟨?_, ?_, by decide⟩
  · by_cases hc : strContains env.iso639_2_text lang = true
    · simp [add_chapters, hfile, htr, hc]
    · simp [add_chapters, hfile, htr, hc]
  · intro h
    by_cases hc : strContains env.iso639_2_text lang = true
    · simp [add_chapters, hfile, htr, hc]
    · exfalso
      simp [add_chapters, hfile, htr, hc] at h

/-- Claim C5 counterexample: `"en"` is not a code of the ISO639-2 list,
yet `add_chapters` (with an existing chapters file) accepts it and stores
it as the chapter language, because the source checks substring
membership in the file's text (`language in open('ISO639-2.txt').read()`)
and `"en"` occurs inside `"eng"`. -/
theorem c5_counterexample :
    ("en" ∈ iso639_2_codes → False) ∧
    (add_chapters envAllFiles emptyFile "chapters.xml" (Option.some "en")).2
      = Option.none ∧
    (add_chapters envAllFiles emptyFile "chapters.xml" (Option.some "en")).1.chapter_language
      = Option.some "en" :=
  ⟨by decide, rfl, rfl⟩

/-- Claim C5 witness. -/
theorem c5_witness :
    (add_chapters envAllFiles emptyFile "chapters.xml" (Option.some "eng")).2
      = Option.none :=
  ((c5_language_substring envAllFiles emptyFile "chapters.xml" "eng" rfl
    (by decide)).1).mpr (by decide)

/-- Claim C6: for a container with exactly one video track whose default
flag is false, the serialized argument list contains
`--default-track <id>:0`, `-d <id>`, `-A` and `-S`; and in general — for
every container, with any number of tracks of any kinds — the argument
list is ordered as: the output flag, the title flag if set, per track in
collection order its name flag, language flag, default-flag negation
(only when not default), forced flag (only when forced), stream-selection
flags, chapter-exclusion flag if set and source path, then the
chapter-language flag, the chapters flag, and the split flags. -/
theorem c6_command_order (env : Env) (m : MKVFile) (out : String) (t : MKVTrack)
    (h1 : m.tracks = [t]) (h2 : t.track_type = "video")
    (h3 : t.default_track = false) :
    List.IsInfix ["--default-track", toString t.track_id ++ ":0"]
      (command env m out) ∧
    List.IsInfix ["-d", toString t.track_id] (command env m out) ∧
    "-A" ∈ command env m out ∧
    "-S" ∈ command env m out ∧
    (∀ (env' : Env) (m' : MKVFile) (out' : String),
      command env' m' out'
        = [m'.mkvmerge_path, "-o", env'.expanduser out'] ++ titleArgs m'
          ++ (m'.tracks.map trackArgs).join ++ chapterLangArgs m' ++ chaptersArgs m'
          ++ m'._split_options) := by
  have hdec := command_decomposition env m out
  have htargs : trackArgs t
      = (if strTruthy t.track_name then
          ["--track-name", toString t.track_id ++ ":" ++ t.track_name.getD ""]
        else []) ++
        ((if strTruthy t.language then
          ["--language", toString t.track_id ++ ":" ++ t.language.getD ""]
        else []) ++
        (["--default-track", toString t.track_id ++ ":0"] ++
        ((if t.forced_track then
          ["--forced-track", toString t.track_id ++ ":1"]
        else []) ++
        (["-d", toString t.track_id] ++ (["-A"] ++ (["-S"] ++
        ((if t.exclude_chapters then ["--no-chapters"] else []) ++
        [t.path]))))))) := by
    simp [trackArgs, h2, h3, List.append_assoc]
  refine ⟨?_, ?_, ?_, ?_, fun env' m' out' => command_decomposition env' m' out'⟩
  · refine ⟨[m.mkvmerge_path, "-o", env.expanduser out] ++ titleArgs m
      ++ (if strTruthy t.track_name then
          ["--track-name", toString t.track_id ++ ":" ++ t.track_name.getD ""]
        else [])
      ++ (if strTruthy t.language then
          ["--language", toString t.track_id ++ ":" ++ t.language.getD ""]
        else []),
      (if t.forced_track then
          ["--forced-track", toString t.track_id ++ ":1"]
        else [])
      ++ (["-d", toString t.track_id] ++ (["-A"] ++ (["-S"]
      ++ ((if t.exclude_chapters then ["--no-chapters"] else []) ++ [t.path]))))
      ++ chapterLangArgs m ++ chaptersArgs m ++ m._split_options, ?_⟩
    rw [hdec, h1]
    simp [htargs, List.append_assoc]
  · refine ⟨[m.mkvmerge_path, "-o", env.expanduser out] ++ titleArgs m
      ++ (if strTruthy t.track_name then
          ["--track-name", toString t.track_id ++ ":" ++ t.track_name.getD ""]
        else [])
      ++ (if strTruthy t.language then
          ["--language", toString t.track_id ++ ":" ++ t.language.getD ""]
        else [])
      ++ ["--default-track", toString t.track_id ++ ":0"]
      ++ (if t.forced_track then
          ["--forced-track", toString t.track_id ++ ":1"]
        else []),
      ["-A"] ++ (["-S"]
      ++ ((if t.exclude_chapters then ["--no-chapters"] else []) ++ [t.path]))
      ++ chapterLangArgs m ++ chaptersArgs m ++ m._split_options, ?_⟩
    rw [hdec, h1]
    simp [htargs, List.append_assoc]
  · rw [hdec, h1]
    simp [htargs]
  · rw [hdec, h1]
    simp [htargs]

/-- Claim C6 witness. -/
theorem c6_witness : "-A" ∈ command envAllFiles sampleFile "out.mkv" :=
  (c6_command_order envAllFiles sampleFile "out.mkv" sampleTrack rfl rfl rfl).2.2.1

end PyMKV
